import Mathlib

/-!
Shallow embedding of oakdb (src/python/oakdb): the condition compiler in
queries.py, the SQLite backend operations in backends.py modelled over an
explicit store, and the Base facade operations in base.py. Machine details
that the spec scopes out (the SQL engine itself, threading, the embedder)
are modelled as oracles/parameters; everything else follows the Python
source line by line.
-/


namespace OakDB

/-- Python values as oakdb handles them: JSON-shaped data plus tuples
(Python distinguishes `list` from `tuple` in `isinstance` checks). -/
inductive PyVal : Type where
  | vNone : PyVal
  | vBool (b : Bool) : PyVal
  | vInt (n : Int) : PyVal
  | vStr (s : String) : PyVal
  | vList (xs : List PyVal) : PyVal
  | vTuple (xs : List PyVal) : PyVal
  | vDict (entries : List (String × PyVal)) : PyVal

/-- Python truthiness (`bool(x)`) for the embedded values. -/
def pyTruthy : PyVal → Bool
  | .vNone => false
  | .vBool b => b
  | .vInt n => n != 0
  | .vStr s => s != ""
  | .vList xs => !xs.isEmpty
  | .vTuple xs => !xs.isEmpty
  | .vDict es => !es.isEmpty

/-- Python `value is None`. -/
def isVNone : PyVal → Bool
  | .vNone => true
  | _ => false

mutual

/-- Python `repr` of a value (the rendering `str.format` uses for values
inside containers). -/
def pyRepr : PyVal → String
  | .vNone => "None"
  | .vBool true => "True"
  | .vBool false => "False"
  | .vInt n => toString n
  | .vStr s => "\x27" ++ s ++ "\x27"
  | .vList xs => "[" ++ pyReprList xs ++ "]"
  | .vTuple xs => "(" ++ pyReprList xs ++ ")"
  | .vDict es => "\x7b" ++ pyReprDict es ++ "\x7d"

/-- Comma-joined `repr`s of a list of values. -/
def pyReprList : List PyVal → String
  | [] => ""
  | [v] => pyRepr v
  | v :: vs => pyRepr v ++ ", " ++ pyReprList vs

/-- Comma-joined `repr`s of a dict's entries. -/
def pyReprDict : List (String × PyVal) → String
  | [] => ""
  | [(k, v)] => "\x27" ++ k ++ "\x27: " ++ pyRepr v
  | (k, v) :: es => "\x27" ++ k ++ "\x27: " ++ pyRepr v ++ ", " ++ pyReprDict es

end

/-- Python `str(x)` (what `"{}".format(x)` interpolates). -/
def pyStr : PyVal → String
  | .vStr s => s
  | v => pyRepr v

/-- Python `sep.join(pieces)`. -/
def pyJoin (sep : String) : List String → String
  | [] => ""
  | [x] => x
  | x :: xs => x ++ sep ++ pyJoin sep xs

/-- Python `s.split("__")` on the character list, structurally recursive
(the byte-position-based String.splitOn does not reduce in the kernel;
this version follows Python code-point semantics for the fixed separator). -/
def splitDunder : List Char → List (List Char)
  | [] => [[]]
  | '_' :: '_' :: rest => [] :: splitDunder rest
  | c :: rest =>
      match splitDunder rest with
      | [] => [[c]]
      | h :: t => (c :: h) :: t

/-- Python `s.split("__")`. -/
def pySplitDunder (s : String) : List String := (splitDunder s.data).map String.mk

/-- Python `s.startswith(pre)` on the character lists. -/
def pyStartsWith (s pre : String) : Bool := pre.data.isPrefixOf s.data

/-- Python `s.upper()`: uppercase every character. -/
def pyUpper (s : String) : String := String.mk (s.data.map Char.toUpper)

/-! Condition model, from src/python/oakdb/queries.py. Errors raised by the
Python code are modelled with `Except String`. The SQL format strings of the
operator tables are embedded as functions applying the one positional
`.format` argument (the left-hand-side expression). -/

/-- queries.py COLUMN_KEYS. -/
def COLUMN_KEYS : List String := ["_key", "_data", "_created", "_updated", "_embedding"]

/-- queries.py JSON_OPERATORS: operator name to SQL template; `Option.none`
in the value position is Python's `None` entry for `in` and `!in`. -/
def JSON_OPERATORS : List (String × Option (String → String)) :=
  [("eq", some (fun l => l ++ " = ?")),
   ("ne", some (fun l => l ++ " != ?")),
   ("lt", some (fun l => "CAST(" ++ l ++ " as NUMERIC) < ?")),
   ("gt", some (fun l => "CAST(" ++ l ++ " as NUMERIC) > ?")),
   ("lte", some (fun l => "CAST(" ++ l ++ " as NUMERIC) <= ?")),
   ("gte", some (fun l => "CAST(" ++ l ++ " as NUMERIC) >= ?")),
   ("starts", some (fun l => l ++ " LIKE ?")),
   ("ends", some (fun l => l ++ " LIKE ?")),
   ("range", some (fun l => "CAST(" ++ l ++ " as NUMERIC) BETWEEN ? AND ?")),
   ("contains", some (fun l => l ++ " LIKE ?")),
   ("!contains", some (fun l => l ++ " NOT LIKE ?")),
   ("in", Option.none),
   ("!in", Option.none)]

/-- queries.py COLUMN_OPERATORS. -/
def COLUMN_OPERATORS : List (String × Option (String → String)) :=
  [("eq", some (fun l => l ++ " = ?")),
   ("ne", some (fun l => l ++ " != ?")),
   ("lt", some (fun l => l ++ " < ?")),
   ("gt", some (fun l => l ++ " > ?")),
   ("lte", some (fun l => l ++ " <= ?")),
   ("gte", some (fun l => l ++ " >= ?")),
   ("starts", some (fun l => l ++ " LIKE ?")),
   ("ends", some (fun l => l ++ " LIKE ?")),
   ("range", some (fun l => l ++ " BETWEEN ? AND ?")),
   ("contains", some (fun l => l ++ " LIKE ?")),
   ("!contains", some (fun l => l ++ " NOT LIKE ?")),
   ("in", Option.none),
   ("!in", Option.none)]

/-- queries.py NULL_SQL. -/
def NULL_SQL : List (String × (String → String)) :=
  [("eq", fun l => l ++ " IS NULL"),
   ("ne", fun l => l ++ " IS NOT NULL")]

/-- queries.py LIKE_FORMATTERS, composed with Python `str()` of the value. -/
def LIKE_FORMATTERS : List (String × (PyVal → String)) :=
  [("starts", fun v => pyStr v ++ "%"),
   ("ends", fun v => "%" ++ pyStr v),
   ("contains", fun v => "%" ++ pyStr v ++ "%"),
   ("!contains", fun v => "%" ++ pyStr v ++ "%")]

/-- Condition.is_column_query: the field starts with an underscore and is a
reserved column key. -/
def is_column_query (field : String) : Bool :=
  pyStartsWith field "_" && COLUMN_KEYS.contains field

/-- Condition.operators: JSON_OPERATORS when the condition is JSON-addressed,
COLUMN_OPERATORS when column-addressed. -/
def operatorsFor (field : String) : List (String × Option (String → String)) :=
  if is_column_query field then COLUMN_OPERATORS else JSON_OPERATORS

/-- The field_expression computed in Condition.__post_init__: the bare column
name with the sigil stripped, or a json_extract over the dotted path. -/
def field_expr (column_name field : String) : String :=
  if is_column_query field then field.drop 1
  else
    let json_path := if field = "data" then "$" else "$." ++ field
    "json_extract(" ++ column_name ++ ", \x27" ++ json_path ++ "\x27)"

/-- Condition.is_valid_null_query: the operator has a NULL_SQL entry (a
non-empty, hence truthy, string) and the value is Python None. -/
def is_valid_null_query (operator : String) (value : PyVal) : Bool :=
  match NULL_SQL.lookup operator with
  | some _ => isVNone value
  | Option.none => false

/-- Condition.handle_range: rejects falsy values and values that are not a
list or tuple of exactly two elements; otherwise the two values become the
parameter list. -/
def handle_range (value : PyVal) : Except String (List PyVal) :=
  if !pyTruthy value then .error "Range lookup values can not be empty"
  else
    match value with
    | .vList xs =>
        if xs.length = 2 then .ok xs
        else .error "Range operator requires a tuple or list with exactly 2 values"
    | .vTuple xs =>
        if xs.length = 2 then .ok xs
        else .error "Range operator requires a tuple or list with exactly 2 values"
    | _ => .error "Range operator requires a tuple or list with exactly 2 values"

/-- Condition.process_param_value: empty parameters for a valid null query,
handle_range for range, a LIKE-formatted single parameter for the LIKE
operators, and otherwise the bare value (the Python bare `except` around the
LIKE formatting lookup). -/
def process_param_value (operator : String) (value : PyVal) : Except String (List PyVal) :=
  if is_valid_null_query operator value then .ok []
  else if operator = "range" then handle_range value
  else
    match LIKE_FORMATTERS.lookup operator with
    | some f => .ok [.vStr (f value)]
    | Option.none => .ok [value]

/-- The Condition dataclass after __post_init__ (queries.py). -/
structure Condition : Type where
  operator : String
  field : String
  value : PyVal
  field_expression : String
  param : List PyVal
  column_name : String

/-- Condition.__post_init__: validates the operator against the applicable
operator table, computes field_expression and processes the parameter value. -/
def mkCondition (operator field : String) (value : PyVal) (column_name : String) :
    Except String Condition :=
  match (operatorsFor field).lookup operator with
  | Option.none => .error "not a valid operator"
  | some _ =>
      match process_param_value operator value with
      | .error e => .error e
      | .ok param =>
          .ok ⟨operator, field, value, field_expr column_name field, param, column_name⟩

/-- Condition.ins_sql: only list values are accepted; one placeholder per
element, `json(?)` in JSON form and `?` in column form. -/
def ins_sql (c : Condition) : Except String String :=
  match c.value with
  | .vList xs =>
      let plc := if is_column_query c.field then "?" else "json(?)"
      let placeholders := pyJoin "," (xs.map (fun _ => plc))
      .ok (c.field_expression ++ (if c.operator = "in" then " IN (" else " NOT IN (") ++
            placeholders ++ ")")
  | _ => .error "operator only supports lists"

/-- Condition.null_sql. -/
def null_sql (c : Condition) : Except String String :=
  match NULL_SQL.lookup c.operator with
  | some f => if isVNone c.value then .ok (f c.field_expression) else .error "Not valid null query."
  | Option.none => .error "Not valid null query."

/-- Condition.get_cond_sql: the null rewriting for None values, ins_sql for
the table entries that hold Python None (`in`, `!in`), and otherwise the
operator's template applied to field_expression. -/
def get_cond_sql (c : Condition) : Except String String :=
  if isVNone c.value then null_sql c
  else
    match (operatorsFor c.field).lookup c.operator with
    | Option.none => .error "KeyError"
    | some Option.none => ins_sql c
    | some (some f) => .ok (f c.field_expression)

/-- Constructing a Condition and materializing it: the pair
(sql_fragment, parameters). -/
def compileCond (operator field : String) (value : PyVal) (column_name : String) :
    Except String (String × List PyVal) :=
  match mkCondition operator field value column_name with
  | .error e => .error e
  | .ok c =>
      match get_cond_sql c with
      | .error e => .error e
      | .ok sql => .ok (sql, c.param)

/-- Number of `?` placeholder characters in a SQL fragment. -/
def countQ (s : String) : Nat := s.data.count '?'

/-! Where-clause compiler, from queries.py build_condition / build_where_clause.
A Python dict argument is one AND-group (an association list in insertion
order); a list argument is a list of such groups. -/

/-- One AND-group: field spec to value, in key-iteration order. -/
abbrev CondGroup : Type := List (String × PyVal)

/-- The two shapes build_where_clause accepts. -/
inductive Filters : Type where
  | group (g : CondGroup) : Filters
  | groups (gs : List CondGroup) : Filters

/-- Parsing of one field spec in build_condition: split on `__`, more than
one separator is an error, a missing operator defaults to `eq`. Returns
(field_name, operator). -/
def splitField (field : String) : Except String (String × String) :=
  let field_parts := pySplitDunder field
  if field_parts.length > 2 then .error "More than one __ in query"
  else
    match field_parts with
    | [f, op] => .ok (f, op)
    | _ => .ok (field, "eq")

/-- One iteration of the build_condition loop: parse the field spec, build
the Condition, materialize (sql, parameters). -/
def compileEntry (column_name : String) (e : String × PyVal) :
    Except String (String × List PyVal) :=
  match splitField e.1 with
  | .error msg => .error msg
  | .ok (field_name, operator) => compileCond operator field_name e.2 column_name

/-- The build_condition loop over the group's entries: clause list and
concatenated parameters, stopping at the first raised error. -/
def buildCondEntries (column_name : String) : CondGroup → Except String (List String × List PyVal)
  | [] => .ok ([], [])
  | e :: rest =>
      match compileEntry column_name e with
      | .error msg => .error msg
      | .ok (sql, ps) =>
          match buildCondEntries column_name rest with
          | .error msg => .error msg
          | .ok (clauses, params) => .ok (sql :: clauses, ps ++ params)

/-- queries.py build_condition: AND-join of the group's clauses. -/
def build_condition (conditions : CondGroup) (column_name : String) :
    Except String (String × List PyVal) :=
  match buildCondEntries column_name conditions with
  | .error msg => .error msg
  | .ok (clauses, params) => .ok (pyJoin " AND " clauses, params)

/-- The loop of build_where_clause over a list of groups. -/
def buildOrGroups (column_name : String) : List CondGroup → Except String (List String × List PyVal)
  | [] => .ok ([], [])
  | g :: rest =>
      match build_condition g column_name with
      | .error msg => .error msg
      | .ok (sql, ps) =>
          match buildOrGroups column_name rest with
          | .error msg => .error msg
          | .ok (clauses, params) => .ok (sql :: clauses, ps ++ params)

/-- queries.py build_where_clause: a dict compiles through build_condition; a
list of dicts OR-joins the AND-compiled groups inside one pair of
parentheses. -/
def build_where_clause (conditions : Filters) (column_name : String) :
    Except String (String × List PyVal) :=
  match conditions with
  | .group g => build_condition g column_name
  | .groups gs =>
      match buildOrGroups column_name gs with
      | .error msg => .error msg
      | .ok (clauses, params) => .ok ("(" ++ pyJoin " OR " clauses ++ ")", params)

/-- The OR-composition the specification describes (each AND-compiled group
itself wrapped in parentheses); stated only to be compared with
build_where_clause. -/
def spec_or_clause (gs : List CondGroup) (column_name : String) :
    Except String (String × List PyVal) :=
  match buildOrGroups column_name gs with
  | .error msg => .error msg
  | .ok (clauses, params) =>
      .ok (pyJoin " OR " (clauses.map (fun c => "(" ++ c ++ ")")), params)

/-! Storage backend, from src/python/oakdb/backends.py. A base's primary
table is modelled as a list of rows; CURRENT_TIMESTAMP is an explicit clock
argument `now` (engine-local time). Raised sqlite3 errors are `Except`
errors; a transaction that raises is rolled back, leaving the store as it
was. -/

/-- One row of a primary table: (key, data, created, updated); the embedding
column stays out of scope with the vector machinery. -/
structure Row : Type where
  key : String
  data : String
  created : Nat
  updated : Nat
  deriving DecidableEq, Repr

/-- The row a key addresses (keys are unique under the PRIMARY KEY
constraint). -/
def lookupRow (st : List Row) (key : String) : Option Row :=
  st.find? (fun r => r.key == key)

/-- SQLiteBackend.add: with override, INSERT OR REPLACE whose created column
is the correlated subselect COALESCE((SELECT created ... WHERE key = ?),
CURRENT_TIMESTAMP) and whose updated column is CURRENT_TIMESTAMP; without
override, a plain INSERT that violates the key constraint when the key
exists. -/
def backend_add (st : List Row) (now : Nat) (key data : String) (override : Bool) :
    Except String (List Row) :=
  if override then
    let created := ((lookupRow st key).map Row.created).getD now
    .ok ((st.filter (fun r => r.key != key)) ++ [⟨key, data, created, now⟩])
  else
    if (lookupRow st key).isSome then .error "UNIQUE constraint failed"
    else .ok (st ++ [⟨key, data, now, now⟩])

/-- The executemany loop of SQLiteBackend.adds: with override, each row is
INSERT OR REPLACE with created AND updated both CURRENT_TIMESTAMP (no
correlated subselect on this path); without override a plain INSERT. Stops at
the first constraint violation. -/
def addsMany (st : List Row) (now : Nat) (items : List (String × String)) (override : Bool) :
    Except String (List Row) :=
  match items with
  | [] => .ok st
  | (key, data) :: rest =>
      if override then
        addsMany ((st.filter (fun r => r.key != key)) ++ [⟨key, data, now, now⟩]) now rest override
      else
        if (lookupRow st key).isSome then .error "UNIQUE constraint failed"
        else addsMany (st ++ [⟨key, data, now, now⟩]) now rest override

/-- SQLiteBackend.adds result dict: success flag, rows_affected, error. -/
structure AddsResult : Type where
  success : Bool
  rows_affected : Nat
  error : String
  deriving DecidableEq, Repr

/-- SQLiteBackend.adds: the batch runs in one transaction; an IntegrityError
rolls the whole batch back (the store is unchanged) and reports
success=False. -/
def backend_adds (st : List Row) (now : Nat) (items : List (String × String))
    (override : Bool) : AddsResult × List Row :=
  match addsMany st now items override with
  | .ok st2 => (⟨true, items.length, ""⟩, st2)
  | .error e => (⟨false, 0, e⟩, st)

/-- SQLiteBackend.delete: DELETE ... WHERE key = ?, returning rowcount > 0. -/
def backend_delete (st : List Row) (key : String) : Bool × List Row :=
  let remaining := st.filter (fun r => r.key != key)
  (decide (remaining.length < st.length), remaining)

/-- A schema object a DROP statement names. -/
inductive SqlObj : Type where
  | table (name : String) : SqlObj
  | trigger (name : String) : SqlObj
  deriving DecidableEq, Repr

/-- SQLiteBackend.drop_tables: the droplist executed for a kind, in source
order. `vector_deps` is the module-level VECTOR_DEPS flag (the optional
vector dependencies imported successfully). -/
def drop_tables (base_name : String) (kind : String) (vector_deps : Bool) : List SqlObj :=
  (if kind = "all" ∨ kind = "main" then
    [.table base_name, .table "oak_conf"] else []) ++
  (if kind = "all" ∨ kind = "search" then
    [.table (base_name ++ "_fts"), .trigger (base_name ++ "_ai"),
     .trigger (base_name ++ "_au"), .trigger (base_name ++ "_ad")] else []) ++
  (if (kind = "all" ∨ kind = "vector") ∧ vector_deps then
    [.table (base_name ++ "_vec"), .trigger (base_name ++ "_emb")] else [])

/-- The triggers SQLiteBackend.create_fts_table installs. -/
def fts_triggers (base_name : String) : List SqlObj :=
  [.trigger (base_name ++ "_ai"), .trigger (base_name ++ "_ad"),
   .trigger (base_name ++ "_au")]

/-- The triggers SQLiteBackend.init_vector_search installs. -/
def vector_triggers (base_name : String) : List SqlObj :=
  [.trigger (base_name ++ "_embc"), .trigger (base_name ++ "_embd"),
   .trigger (base_name ++ "_embu")]

/-! Base facade, from src/python/oakdb/base.py. -/

/-- Base.drop: the name must match (the assert raises otherwise); then
drop_tables runs with "main" when main_only else "all". -/
def base_drop (self_name name : String) (main_only : Bool) (vector_deps : Bool) :
    Except String (List SqlObj) :=
  if name = self_name then
    .ok (drop_tables self_name (if main_only then "main" else "all") vector_deps)
  else .error "Confirm by providing the name of the table"

/-- Base.__init__ derivation of search_enabled:
bool(confs.get(name + "_search", False)). Python `bool` of a string is
true exactly when the string is non-empty; of the default False it is
false. -/
def base_init_search_enabled (confs : List (String × String)) (name : String) : Bool :=
  match confs.lookup (name ++ "_search") with
  | some s => s != ""
  | Option.none => false

/-- Base.__init__ derivation of vector_enabled: inside try, backend.vdb() is
probed (`vdb_ok`; SQLiteBackend defines no such attribute, so on the shipped
backend this is False and the except-branch always leaves vector_enabled
False); when the probe succeeds, bool(confs.get(name + "_vector", False)). -/
def base_init_vector_enabled (confs : List (String × String)) (name : String)
    (vdb_ok : Bool) : Bool :=
  if vdb_ok then
    match confs.lookup (name ++ "_vector") with
    | some s => s != ""
    | Option.none => false
  else false

/-- Python dict.pop(k, default) on an association list: the removed entry. -/
def dictPop (entries : List (String × PyVal)) (k : String) : PyVal :=
  ((entries.lookup k).getD .vNone)

/-- The association list after dict.pop(k, default). -/
def dictAfterPop (entries : List (String × PyVal)) (k : String) : List (String × PyVal) :=
  entries.eraseP (fun e => e.1 == k)

/-- One iteration of the Base.adds item loop: generate a key, take
data = item.copy() if the item is a dict (else the item itself), then
key = item.pop("key", None) or key — popping from the ORIGINAL item.
Returns (key as used, the data value handed to json.dumps, the item as the
caller sees it after the call). -/
def adds_process_item (gen_key : String) (item : PyVal) : PyVal × PyVal × PyVal :=
  match item with
  | .vDict entries =>
      let data := PyVal.vDict entries
      let popped := dictPop entries "key"
      let key := if pyTruthy popped then popped else .vStr gen_key
      (key, data, .vDict (dictAfterPop entries "key"))
  | other => (.vStr gen_key, other, other)

/-- The whole Base.adds processing loop, one generated key per item.
Returns (the (key, data) pairs handed to the backend, the items as the
caller sees them afterwards). -/
def adds_process : List (String × PyVal) → List (PyVal × PyVal) × List PyVal
  | [] => ([], [])
  | (gen_key, item) :: rest =>
      let (key, data, after) := adds_process_item gen_key item
      let (pairs, afters) := adds_process rest
      ((key, data) :: pairs, after :: afters)

/-- Keys valid for Base.get / Base.delete (VALID_KEYS_GET = (str, int,
float); the embedding covers the str and int cases, plus the invalid
NoneType and bool cases Python rejects by exact type). -/
inductive PyKey : Type where
  | kNone : PyKey
  | kBool (b : Bool) : PyKey
  | kStr (s : String) : PyKey
  | kInt (n : Int) : PyKey
  deriving DecidableEq, Repr

/-- type(key) in VALID_KEYS_GET. -/
def pyKeyValid : PyKey → Bool
  | .kStr _ => true
  | .kInt _ => true
  | _ => false

/-- Python `key == ""` (only a string compares equal to the empty string). -/
def pyKeyEmpty : PyKey → Bool
  | .kStr s => s == ""
  | _ => false

/-- Python str(key). -/
def pyKeyStr : PyKey → String
  | .kStr s => s
  | .kInt n => toString n
  | .kNone => "None"
  | .kBool true => "True"
  | .kBool false => "False"

/-- base.py DeleteResponse dataclass. -/
structure DeleteResponse : Type where
  key : String
  deleted : Bool
  error : String
  deriving DecidableEq, Repr

/-- DeleteResponse.__bool__. -/
def deleteTruthy (r : DeleteResponse) : Bool := r.error == ""

/-- Base.delete over a store: key-type validation, empty-key check, then the
backend delete; returns the response and the store afterwards. -/
def base_delete (st : List Row) (key : PyKey) : DeleteResponse × List Row :=
  if !pyKeyValid key then (⟨"", false, "Invalid `key` type"⟩, st)
  else if pyKeyEmpty key then (⟨"", false, "Key is empty"⟩, st)
  else
    let k := pyKeyStr key
    let (deleted, st2) := backend_delete st k
    (⟨k, deleted, ""⟩, st2)

/-! Fetch: queries.py build_fetch and base.py Base.fetch. The SQL engine
executing the built query is out of scope (an external collaborator), so the
backend's execution of builder output is an oracle: a count for the count
query, a row list for the page query, and `loads` standing for json.loads. -/

/-- The OrderFetch literals. -/
def orderFetchLits : List String :=
  ["key__asc", "key__desc", "data__asc", "data__desc",
   "created__asc", "created__desc", "updated__asc", "updated__desc"]

/-- Python truthiness of the `conditions` argument. -/
def filtersTruthy : Filters → Bool
  | .group g => !g.isEmpty
  | .groups gs => !gs.isEmpty

/-- build_fetch: `build_where_clause(conditions) if conditions else ("", [])`. -/
def whereForFetch (conditions : Option Filters) : Except String (String × List PyVal) :=
  match conditions with
  | some c => if filtersTruthy c then build_where_clause c "data" else .ok ("", [])
  | Option.none => .ok ("", [])

/-- queries.py build_fetch. The count form returns before the order assert;
the page form checks the order literal (the failed assert is the raised
error), appends limit and offset parameters and renders ORDER BY / LIMIT /
OFFSET. SQL text whitespace is normalized to single spaces. -/
def build_fetch (base_name : String) (conditions : Option Filters) (limit offset : Int)
    (order : String) (count : Bool) : Except String (String × List PyVal) :=
  match whereForFetch conditions with
  | .error e => .error e
  | .ok (where_sql, params) =>
      if count then
        .ok ("SELECT COUNT(*) FROM " ++ base_name ++
              (if where_sql != "" then " WHERE " ++ where_sql else ""), params)
      else
        if orderFetchLits.contains order then
          let parts := pySplitDunder order
          let field := parts.headD ""
          let direction := pyUpper (parts.getD 1 "")
          .ok ("SELECT key, data, created, updated FROM " ++ base_name ++
                (if where_sql != "" then " WHERE " ++ where_sql else "") ++
                " ORDER BY " ++ field ++ " " ++ direction ++ " LIMIT ? OFFSET ?",
               params ++ [.vInt limit, .vInt offset])
        else .error ("Invalid order type: " ++ order)

/-- One parsed item of a fetch result: key, json.loads of the data column,
created, updated. -/
structure FetchItem : Type where
  key : String
  data : PyVal
  created : Nat
  updated : Nat

/-- base.py ItemsResponse dataclass (defaults page=0, pages=0, total=0,
limit=0, items=[], error=""). -/
structure ItemsResponse : Type where
  page : Int
  pages : Nat
  total : Nat
  limit : Int
  items : List FetchItem
  error : String

/-- ItemsResponse.__bool__. -/
def itemsTruthy (r : ItemsResponse) : Bool := r.error == ""

/-- The backend pieces Base.fetch calls into, as oracles: the engine's
answer to the count query, its answer to the page query, and json.loads. -/
structure FetchBackend : Type where
  execCount : String × List PyVal → Option Nat
  execRows : String × List PyVal → List Row
  loads : String → Option PyVal

/-- SQLiteBackend.fetch_query in count mode followed by
int(count_result[0][0]): builder output executed by the engine. -/
def fetch_query_count (b : FetchBackend) (base_name : String) (filters : Option Filters)
    (limit offset : Int) : Except String Nat :=
  match build_fetch base_name filters limit offset "" true with
  | .error e => .error e
  | .ok q =>
      match b.execCount q with
      | some n => .ok n
      | Option.none => .error "count query failed"

/-- SQLiteBackend.fetch_query in page mode. -/
def fetch_query_rows (b : FetchBackend) (base_name : String) (filters : Option Filters)
    (limit offset : Int) (order : String) : Except String (List Row) :=
  match build_fetch base_name filters limit offset order false with
  | .error e => .error e
  | .ok q => .ok (b.execRows q)

/-- The item-building comprehension of Base.fetch: json.loads every data
column (a raised decode error fails the whole fetch). -/
def parseItems (loads : String → Option PyVal) : List Row → Option (List FetchItem)
  | [] => some []
  | r :: rest =>
      match loads r.data with
      | some v => (parseItems loads rest).map (fun its => ⟨r.key, v, r.created, r.updated⟩ :: its)
      | Option.none => Option.none

/-- base.py Base.fetch: clamp limit and page to at least 1, compute
offset = (page-1)*limit, count first, pages = (total+limit-1)//limit, the
early empty return when page > pages, else the page query; any exception
becomes an error response. The filters argument is typed, so the
`type(filters) not in (list, dict, NoneType)` error branch has no
representation here. -/
def base_fetch (b : FetchBackend) (base_name : String) (filters : Option Filters)
    (limit : Int) (order : String) (page : Int) : ItemsResponse :=
  let limit2 := max 1 limit
  let page2 := max 1 page
  let offset := (page2 - 1) * limit2
  match fetch_query_count b base_name filters limit2 offset with
  | .error e => ⟨0, 0, 0, 0, [], e⟩
  | .ok total_items =>
      let total_pages := (total_items + limit2.toNat - 1) / limit2.toNat
      if (total_pages : Int) < page2 then
        ⟨page2, total_pages, total_items, 0, [], ""⟩
      else
        match fetch_query_rows b base_name filters limit2 offset order with
        | .error e => ⟨0, 0, 0, 0, [], e⟩
        | .ok rows =>
            match parseItems b.loads rows with
            | Option.none => ⟨0, 0, 0, 0, [], "JSONDecodeError"⟩
            | some items => ⟨page2, total_pages, total_items, limit2, items, ""⟩

/-! Vocabulary used by the theorem statements. -/

/-- The closed operator set (the keys of both operator tables). -/
def opKeys : List String :=
  ["eq", "ne", "lt", "gt", "lte", "gte", "starts", "ends", "range",
   "contains", "!contains", "in", "!in"]

/-- A Python sequence in the sense of the specification (list, tuple or
string). -/
def isSeqVal : PyVal → Bool
  | .vList _ => true
  | .vTuple _ => true
  | .vStr _ => true
  | _ => false

/-- A list or tuple of exactly two elements. -/
def isPairVal : PyVal → Bool
  | .vList xs => xs.length == 2
  | .vTuple xs => xs.length == 2
  | _ => false

/-- Exactly a Python list. -/
def isListVal : PyVal → Bool
  | .vList _ => true
  | _ => false

/-- len() of a list or tuple value. -/
def listLen : PyVal → Nat
  | .vList xs => xs.length
  | .vTuple xs => xs.length
  | _ => 0

/-- Whether an Except computation succeeded (no Python exception raised). -/
def exceptOk {α : Type} : Except String α → Bool
  | .ok _ => true
  | .error _ => false

/-- max(1, n): the clamp Base.fetch applies to limit and page. -/
def clamp1 (n : Int) : Int := max 1 n

/-- The page count Base.fetch computes: (total + limit - 1) // limit over the
clamped limit. -/
def pagesFor (total : Nat) (limit : Int) : Nat :=
  (total + (clamp1 limit).toNat - 1) / (clamp1 limit).toNat

/-- The offset Base.fetch computes: (page - 1) * limit over clamped values. -/
def offsetFor (page limit : Int) : Int := (clamp1 page - 1) * clamp1 limit


/-- A concrete fetch backend oracle used by the C9 witness. -/
def fetchOracleW : FetchBackend :=
  ⟨fun _ => some 5, fun _ => [], fun _ => some .vNone⟩

theorem lookup_cons_ite {α β : Type} [BEq α] [LawfulBEq α] (a k : α) (b : β) (es : List (α × β)) :
    List.lookup a ((k, b) :: es) = if a == k then some b else List.lookup a es := by
  rw [List.lookup_cons]
  cases h : a == k <;> simp [h]

theorem lookup_eq_some_mem {α β : Type} [BEq α] [LawfulBEq α] {l : List (α × β)} {k : α}
    {v : β} (h : l.lookup k = some v) : (k, v) ∈ l := by
  induction l with
  | nil => simp [List.lookup] at h
  | cons e t ih =>
      obtain ⟨k2, v2⟩ := e
      rw [lookup_cons_ite] at h
      by_cases hk : k = k2
      · subst hk
        simp at h
        subst h
        exact List.mem_cons_self _ _
      · rw [beq_false_of_ne hk] at h
        simp at h
        exact List.mem_cons_of_mem _ (ih h)

theorem lookup_isSome_mem_keys {α β : Type} [BEq α] [LawfulBEq α] {l : List (α × β)}
    {k : α} (h : (l.lookup k).isSome = true) : k ∈ l.map Prod.fst := by
  cases hl : l.lookup k with
  | none => rw [hl] at h; simp at h
  | some v => exact List.mem_map.mpr ⟨(k, v), lookup_eq_some_mem hl, rfl⟩

theorem mem_keys_lookup_isSome {α β : Type} [BEq α] [LawfulBEq α] {l : List (α × β)}
    {k : α} (h : k ∈ l.map Prod.fst) : (l.lookup k).isSome = true := by
  induction l with
  | nil => simp at h
  | cons e t ih =>
      obtain ⟨k2, v2⟩ := e
      rw [lookup_cons_ite]
      by_cases hk : k = k2
      · subst hk; simp
      · rw [beq_false_of_ne hk]
        simp only [List.map_cons, List.mem_cons] at h
        rcases h with h | h
        · exact absurd h hk
        · simpa using ih h

theorem countQ_append (a b : String) : countQ (a ++ b) = countQ a + countQ b := by
  simp [countQ, String.data_append, List.count_append]

theorem append_left_cancel_str {a s t : String} (h : a ++ s = a ++ t) : s = t := by
  have hd := congrArg String.data h
  simp only [String.data_append] at hd
  exact String.ext (List.append_cancel_left hd)

theorem append_ne_of_ne (a : String) {s t : String} (h : s ≠ t) : a ++ s ≠ a ++ t :=
  fun he => h (append_left_cancel_str he)


theorem handle_range_ok_len {v : PyVal} {xs : List PyVal} (h : handle_range v = .ok xs) :
    xs.length = 2 := by
  cases v <;> unfold handle_range at h <;> split at h <;> simp_all <;>
    (try split at h) <;> simp_all

theorem handle_range_ok_pair {v : PyVal} {xs : List PyVal} (h : handle_range v = .ok xs) :
    isPairVal v = true := by
  cases v <;> unfold handle_range at h <;> split at h <;> simp_all [isPairVal] <;>
    (try split at h) <;> simp_all

theorem isPair_handle_range_ok {v : PyVal} (h : isPairVal v = true) :
    ∃ xs, handle_range v = .ok xs := by
  cases v with
  | vList xs =>
      simp [isPairVal] at h
      refine ⟨xs, ?_⟩
      have hne : xs.isEmpty = false := by cases xs <;> simp_all
      unfold handle_range
      simp [pyTruthy, hne, h]
  | vTuple xs =>
      simp [isPairVal] at h
      refine ⟨xs, ?_⟩
      have hne : xs.isEmpty = false := by cases xs <;> simp_all
      unfold handle_range
      simp [pyTruthy, hne, h]
  | vNone => simp [isPairVal] at h
  | vBool b => simp [isPairVal] at h
  | vInt n => simp [isPairVal] at h
  | vStr s => simp [isPairVal] at h
  | vDict es => simp [isPairVal] at h

theorem ppv_ok_length {op : String} {v : PyVal} {ps : List PyVal}
    (h : process_param_value op v = .ok ps) :
    ps.length = if is_valid_null_query op v then 0 else if op = "range" then 2 else 1 := by
  unfold process_param_value at h
  split at h
  · rename_i hn
    cases h
    simp [hn]
  · rename_i hn
    rw [if_neg hn]
    split at h
    · rename_i hr
      rw [if_pos hr]
      exact handle_range_ok_len h
    · rename_i hr
      rw [if_neg hr]
      split at h <;> (cases h; rfl)

theorem mkCondition_ok {op fld : String} {v : PyVal} {col : String} {c : Condition}
    (h : mkCondition op fld v col = .ok c) :
    c.operator = op ∧ c.field = fld ∧ c.value = v ∧ c.column_name = col ∧
    c.field_expression = field_expr col fld ∧
    process_param_value op v = .ok c.param ∧
    ((operatorsFor fld).lookup op).isSome = true := by
  unfold mkCondition at h
  split at h
  · simp at h
  · rename_i o hL
    split at h
    · simp at h
    · rename_i ps hp
      cases h
      simp [hL, hp]

theorem countQ_pyJoin_const {α : Type} (plc : String) (xs : List α) :
    countQ (pyJoin "," (xs.map (fun _ => plc))) = xs.length * countQ plc := by
  induction xs with
  | nil => simp [pyJoin, countQ]
  | cons x t ih =>
      cases t with
      | nil => simp [pyJoin]
      | cons y tt =>
          simp only [List.map_cons] at ih ⊢
          rw [show pyJoin "," (plc :: plc :: List.map (fun _ => plc) tt) =
                plc ++ "," ++ pyJoin "," (plc :: List.map (fun _ => plc) tt) from rfl]
          rw [countQ_append, countQ_append, ih]
          have h0 : countQ "," = 0 := by decide
          rw [h0]
          simp [List.length_cons]
          ring

theorem countQ_field_expr (col fld : String) (hf : countQ fld = 0) (hc : countQ col = 0) :
    countQ (field_expr col fld) = 0 := by
  unfold field_expr
  by_cases h : is_column_query fld = true
  · rw [if_pos h]
    unfold is_column_query at h
    have hmem : fld ∈ COLUMN_KEYS :=
      List.mem_of_elem_eq_true ((Bool.and_eq_true _ _).mp h).2
    fin_cases hmem <;> decide
  · rw [if_neg h]
    by_cases hd : fld = "data"
    · subst hd
      simp only [if_pos rfl]
      simp [countQ_append, hc]
      decide
    · rw [if_neg hd]
      simp [countQ_append, hc, hf]
      decide

theorem ins_sql_ok_list {c : Condition} {sql : String} (h : ins_sql c = .ok sql) :
    isListVal c.value = true := by
  unfold ins_sql at h
  split at h
  · simp [isListVal, *]
  · simp at h

theorem get_cond_sql_ok_null {c : Condition} {sql : String}
    (h : get_cond_sql c = .ok sql) (hv : isVNone c.value = true) :
    c.operator = "eq" ∨ c.operator = "ne" := by
  unfold get_cond_sql at h
  rw [if_pos hv] at h
  unfold null_sql at h
  split at h
  · rename_i f hL
    have hmem := lookup_eq_some_mem hL
    simp [NULL_SQL] at hmem
    rcases hmem with ⟨h1, _⟩ | ⟨h1, _⟩
    · exact Or.inl h1
    · exact Or.inr h1
  · simp at h

theorem countQ_pyJoin_replicate (plc : String) (n : Nat) :
    countQ (pyJoin "," (List.replicate n plc)) = n * countQ plc := by
  induction n with
  | zero => simp [pyJoin, countQ]
  | succ m ih =>
      cases m with
      | zero => simp [pyJoin]
      | succ k =>
          rw [List.replicate_succ]
          rw [show pyJoin "," (plc :: List.replicate (k + 1) plc) =
                plc ++ "," ++ pyJoin "," (List.replicate (k + 1) plc) from by
            rw [List.replicate_succ]
            rfl]
          rw [countQ_append, countQ_append, ih]
          have h0 : countQ "," = 0 := by decide
          rw [h0]
          ring

theorem get_cond_sql_ok_countQ {c : Condition} {sql : String}
    (h : get_cond_sql c = .ok sql) (hfe : countQ c.field_expression = 0) :
    countQ sql = (if isVNone c.value then 0
      else if c.operator = "range" then 2
      else if c.operator = "in" ∨ c.operator = "!in" then listLen c.value
      else 1) := by
  have q1 : countQ " IN (" = 0 := by decide
  have q2 : countQ " NOT IN (" = 0 := by decide
  have q3 : countQ ")" = 0 := by decide
  have q4 : countQ "?" = 1 := by decide
  have q5 : countQ "json(?)" = 1 := by decide
  unfold get_cond_sql at h
  by_cases hv : isVNone c.value = true
  · rw [if_pos hv] at h
    rw [if_pos hv]
    unfold null_sql at h
    split at h
    · rename_i f hL
      rw [if_pos hv] at h
      cases h
      have hmem := lookup_eq_some_mem hL
      simp [NULL_SQL] at hmem
      rcases hmem with ⟨h1, hf⟩ | ⟨h1, hf⟩ <;>
        (subst hf; rw [countQ_append, hfe]; decide)
    · simp at h
  · rw [if_neg hv] at h
    rw [if_neg hv]
    unfold operatorsFor at h
    by_cases hcq : is_column_query c.field = true
    · rw [if_pos hcq] at h
      split at h
      · simp at h
      · rename_i hL
        have hmem := lookup_eq_some_mem hL
        simp [COLUMN_OPERATORS] at hmem
        unfold ins_sql at h
        cases hval : c.value <;> rw [hval] at h <;> simp at h
        rename_i xs
        obtain ⟨hsql, -⟩ := h
        rcases hmem with h1 | h1 <;>
          (rw [h1]
           simp only [hcq, if_pos rfl]
           simp [countQ_append, countQ_pyJoin_replicate, hfe, q1, q2, q3, q4, listLen])
      · rename_i x f hL
        cases h
        have hmem := lookup_eq_some_mem hL
        simp [COLUMN_OPERATORS] at hmem
        rcases hmem with ⟨h1, hf⟩ | ⟨h1, hf⟩ | ⟨h1, hf⟩ | ⟨h1, hf⟩ | ⟨h1, hf⟩ |
          ⟨h1, hf⟩ | ⟨h1, hf⟩ | ⟨h1, hf⟩ | ⟨h1, hf⟩ | ⟨h1, hf⟩ | ⟨h1, hf⟩ <;>
          (subst hf; rw [h1]; simp [countQ_append, hfe]; decide)
    · rw [if_neg hcq] at h
      split at h
      · simp at h
      · rename_i hL
        have hmem := lookup_eq_some_mem hL
        simp [JSON_OPERATORS] at hmem
        unfold ins_sql at h
        cases hval : c.value <;> rw [hval] at h <;> simp at h
        rename_i xs
        obtain ⟨hsql, -⟩ := h
        rcases hmem with h1 | h1 <;>
          (rw [h1]
           simp only [hcq, if_neg]
           simp [countQ_append, countQ_pyJoin_replicate, hfe, q1, q2, q3, q5, listLen])
      · rename_i x f hL
        cases h
        have hmem := lookup_eq_some_mem hL
        simp [JSON_OPERATORS] at hmem
        rcases hmem with ⟨h1, hf⟩ | ⟨h1, hf⟩ | ⟨h1, hf⟩ | ⟨h1, hf⟩ | ⟨h1, hf⟩ |
          ⟨h1, hf⟩ | ⟨h1, hf⟩ | ⟨h1, hf⟩ | ⟨h1, hf⟩ | ⟨h1, hf⟩ | ⟨h1, hf⟩ <;>
          (subst hf; rw [h1]; simp [countQ_append, hfe]; decide)

theorem null_query_isVNone {op : String} {v : PyVal}
    (h : is_valid_null_query op v = true) : isVNone v = true := by
  unfold is_valid_null_query at h
  split at h
  · exact h
  · simp at h

theorem null_query_eq_ne {op : String} {v : PyVal} (hop : op = "eq" ∨ op = "ne")
    (hv : isVNone v = true) : is_valid_null_query op v = true := by
  rcases hop with h | h <;> subst h <;> exact hv

theorem C2_amended_aux {op fld : String} {v : PyVal} {col : String} {c : Condition}
    {sql : String} (hf : countQ fld = 0) (hc : countQ col = 0)
    (hmk : mkCondition op fld v col = .ok c) (hsql : get_cond_sql c = .ok sql) :
    ((op = "in" ∨ op = "!in") → (c.param.length = 1 ∧ countQ sql = listLen v)) ∧
    (¬(op = "in" ∨ op = "!in") → c.param.length = countQ sql) := by
  obtain ⟨hop, hfld, hval, hcol, hfe, hppv, -⟩ := mkCondition_ok hmk
  have hfe0 : countQ c.field_expression = 0 := by
    rw [hfe]; exact countQ_field_expr col fld hf hc
  have hlen := ppv_ok_length hppv
  have hcnt := get_cond_sql_ok_countQ hsql hfe0
  rw [hop] at hcnt
  rw [hval] at hcnt
  constructor
  · intro hin
    have hnn : is_valid_null_query op v = false := by
      rcases hin with h | h <;> subst h <;> rfl
    have hv0 : isVNone v = false := by
      by_contra hvv
      have hv1 : isVNone v = true := by simpa using hvv
      have hh := get_cond_sql_ok_null hsql (by rw [hval]; exact hv1)
      rw [hop] at hh
      rcases hin with h | h <;> subst h <;> rcases hh with h2 | h2 <;> simp at h2
    refine ⟨?_, ?_⟩
    · rw [hlen, hnn]
      rcases hin with h | h <;> subst h <;> rfl
    · rw [hcnt]
      rcases hin with h | h <;> subst h <;> simp [hv0]
  · intro hnin
    by_cases hnq : is_valid_null_query op v = true
    · have hv1 := null_query_isVNone hnq
      rw [hlen, hcnt]
      simp [hnq, hv1]
    · have hv0 : isVNone v = false := by
        by_contra hvv
        have hv1 : isVNone v = true := by simpa using hvv
        have hh := get_cond_sql_ok_null hsql (by rw [hval]; exact hv1)
        rw [hop] at hh
        exact hnq (null_query_eq_ne hh hv1)
      rw [hlen, hcnt]
      simp only [hnq, hv0, if_false, Bool.false_eq_true]
      by_cases hr : op = "range"
      · simp [hr]
      · simp [hr, hnin]


theorem null_value_compile_fails {op fld col : String} (h1 : op ≠ "eq") (h2 : op ≠ "ne") :
    exceptOk (compileCond op fld .vNone col) = false := by
  unfold compileCond
  cases hmk : mkCondition op fld .vNone col with
  | error e => simp [exceptOk]
  | ok c =>
      cases hsql : get_cond_sql c with
      | error e => simp [hsql, exceptOk]
      | ok sql =>
          exfalso
          obtain ⟨hop, -, hval, -, -, -, -⟩ := mkCondition_ok hmk
          have hh := get_cond_sql_ok_null hsql (by rw [hval]; rfl)
          rw [hop] at hh
          rcases hh with h | h
          · exact h1 h
          · exact h2 h

theorem compile_eq_null (fld col : String) :
    compileCond "eq" fld .vNone col = .ok (field_expr col fld ++ " IS NULL", []) := by
  unfold compileCond mkCondition operatorsFor field_expr
  by_cases hcq : is_column_query fld = true
  · rw [if_pos hcq, if_pos hcq]; rfl
  · rw [if_neg hcq, if_neg hcq]; rfl

theorem compile_ne_null (fld col : String) :
    compileCond "ne" fld .vNone col = .ok (field_expr col fld ++ " IS NOT NULL", []) := by
  unfold compileCond mkCondition operatorsFor field_expr
  by_cases hcq : is_column_query fld = true
  · rw [if_pos hcq, if_pos hcq]; rfl
  · rw [if_neg hcq, if_neg hcq]; rfl

theorem operatorsFor_keys (fld : String) :
    (operatorsFor fld).map Prod.fst = opKeys := by
  unfold operatorsFor
  by_cases hcq : is_column_query fld = true
  · rw [if_pos hcq]; rfl
  · rw [if_neg hcq]; rfl

theorem ppv_range {v : PyVal} {ps : List PyVal}
    (h : process_param_value "range" v = .ok ps) : handle_range v = .ok ps := by
  unfold process_param_value at h
  rw [show is_valid_null_query "range" v = false from rfl] at h
  simpa using h

theorem get_in_isList {c : Condition} {sql : String}
    (hin : c.operator = "in" ∨ c.operator = "!in") (h : get_cond_sql c = .ok sql) :
    isListVal c.value = true := by
  by_cases hv : isVNone c.value = true
  · rcases get_cond_sql_ok_null h hv with h1 | h1 <;>
      rcases hin with h2 | h2 <;> rw [h2] at h1 <;> simp at h1
  · unfold get_cond_sql at h
    rw [if_neg hv] at h
    unfold operatorsFor at h
    by_cases hcq : is_column_query c.field = true
    · rw [if_pos hcq] at h
      rcases hin with h2 | h2 <;> rw [h2] at h <;> exact ins_sql_ok_list h
    · rw [if_neg hcq] at h
      rcases hin with h2 | h2 <;> rw [h2] at h <;> exact ins_sql_ok_list h

theorem compile_ok_iff (op fld : String) (v : PyVal) (col : String) :
    exceptOk (compileCond op fld v col) = true ↔
      (opKeys.contains op = true ∧
       (op = "range" → isPairVal v = true) ∧
       ((op = "in" ∨ op = "!in") → isListVal v = true) ∧
       (isVNone v = true → op = "eq" ∨ op = "ne")) := by
  constructor
  · intro h
    obtain ⟨c, hmk, sql, hsql⟩ :
        ∃ c, mkCondition op fld v col = .ok c ∧ ∃ sql, get_cond_sql c = .ok sql := by
      unfold compileCond at h
      cases hmk : mkCondition op fld v col with
      | error e => rw [hmk] at h; simp [exceptOk] at h
      | ok c =>
          rw [hmk] at h
          dsimp only at h
          cases hsql : get_cond_sql c with
          | error e => rw [hsql] at h; simp [exceptOk] at h
          | ok sql => exact ⟨c, rfl, sql, hsql⟩
    obtain ⟨hop, hfld, hval, hcol, hfe, hppv, hsome⟩ := mkCondition_ok hmk
    refine ⟨?_, ?_, ?_, ?_⟩
    · have hmem := lookup_isSome_mem_keys hsome
      rw [operatorsFor_keys] at hmem
      exact List.elem_eq_true_of_mem hmem
    · intro hr
      subst hr
      exact handle_range_ok_pair (ppv_range hppv)
    · intro hin
      have := get_in_isList (by rw [hop]; exact hin) hsql
      rwa [hval] at this
    · intro hv
      have := get_cond_sql_ok_null hsql (by rw [hval]; exact hv)
      rwa [hop] at this
  · rintro ⟨h1, h2, h3, h4⟩
    by_cases hv : isVNone v = true
    · have hv2 : v = PyVal.vNone := by
        cases v <;> simp [isVNone] at hv
        rfl
      subst hv2
      rcases h4 rfl with h5 | h5 <;> subst h5
      · rw [compile_eq_null]; rfl
      · rw [compile_ne_null]; rfl
    have hkey : op ∈ (operatorsFor fld).map Prod.fst := by
      rw [operatorsFor_keys]
      exact List.mem_of_elem_eq_true h1
    have hsome := mem_keys_lookup_isSome hkey
    obtain ⟨o, hL⟩ : ∃ o, (operatorsFor fld).lookup op = some o := by
      cases hLL : (operatorsFor fld).lookup op
      · rw [hLL] at hsome; simp at hsome
      · exact ⟨_, rfl⟩
    obtain ⟨ps, hps⟩ : ∃ ps, process_param_value op v = .ok ps := by
      unfold process_param_value
      by_cases hq : is_valid_null_query op v = true
      · rw [if_pos hq]; exact ⟨[], rfl⟩
      · rw [if_neg hq]
        by_cases hr : op = "range"
        · rw [if_pos hr]; exact isPair_handle_range_ok (h2 hr)
        · rw [if_neg hr]
          cases hlk : LIKE_FORMATTERS.lookup op
          · exact ⟨_, rfl⟩
          · exact ⟨_, rfl⟩
    have hmk : mkCondition op fld v col =
        .ok ⟨op, fld, v, field_expr col fld, ps, col⟩ := by
      unfold mkCondition
      rw [hL, hps]
    have hgc : ∃ sql, get_cond_sql ⟨op, fld, v, field_expr col fld, ps, col⟩ = .ok sql := by
      unfold get_cond_sql
      rw [if_neg hv]
      rw [hL]
      cases o with
        | none =>
            have hmem := lookup_eq_some_mem hL
            have hio : op = "in" ∨ op = "!in" := by
              unfold operatorsFor at hmem
              by_cases hcq : is_column_query fld = true
              · rw [if_pos hcq] at hmem
                simp [COLUMN_OPERATORS] at hmem
                exact hmem
              · rw [if_neg hcq] at hmem
                simp [JSON_OPERATORS] at hmem
                exact hmem
            obtain ⟨xs, hxs⟩ : ∃ xs, v = PyVal.vList xs := by
              have hl := h3 hio
              cases v with
              | vList xs => exact ⟨xs, rfl⟩
              | vNone => simp [isListVal] at hl
              | vBool b => simp [isListVal] at hl
              | vInt n => simp [isListVal] at hl
              | vStr s => simp [isListVal] at hl
              | vTuple xs => simp [isListVal] at hl
              | vDict es => simp [isListVal] at hl
            subst hxs
            unfold ins_sql
            exact ⟨_, rfl⟩
        | some f => exact ⟨_, rfl⟩
    obtain ⟨sql, hsql⟩ := hgc
    unfold compileCond
    rw [hmk]
    dsimp only
    rw [hsql]
    rfl

theorem buildCondEntries_mapM (col : String) (g : CondGroup) :
    buildCondEntries col g =
      (g.mapM (compileEntry col)).map
        (fun rs => (rs.map Prod.fst, (rs.map Prod.snd).flatten)) := by
  induction g with
  | nil => rfl
  | cons e t ih =>
      unfold buildCondEntries
      rw [List.mapM_cons]
      cases hce : compileEntry col e with
      | error msg => simp only [bind, Except.bind, Except.map]
      | ok r =>
          rw [ih]
          cases hmt : t.mapM (compileEntry col) with
          | error msg => simp only [bind, Except.bind, Except.map]
          | ok rs => simp [bind, Except.bind, Except.map, pure, Except.pure]

theorem buildOrGroups_mapM (col : String) (gs : List CondGroup) :
    buildOrGroups col gs =
      (gs.mapM (fun grp => build_condition grp col)).map
        (fun rs => (rs.map Prod.fst, (rs.map Prod.snd).flatten)) := by
  induction gs with
  | nil => rfl
  | cons g t ih =>
      unfold buildOrGroups
      rw [List.mapM_cons]
      cases hce : build_condition g col with
      | error msg => simp only [bind, Except.bind, Except.map]
      | ok r =>
          rw [ih]
          cases hmt : t.mapM (fun grp => build_condition grp col) with
          | error msg => simp only [bind, Except.bind, Except.map]
          | ok rs => simp [bind, Except.bind, Except.map, pure, Except.pure]

theorem delete_absent_aux (st : List Row) (key : PyKey)
    (hv : pyKeyValid key = true) (he : pyKeyEmpty key = false)
    (habs : lookupRow st (pyKeyStr key) = Option.none) :
    base_delete st key = (⟨pyKeyStr key, false, ""⟩, st) := by
  have hfil : st.filter (fun r => r.key != pyKeyStr key) = st := by
    rw [List.filter_eq_self]
    intro r hr
    have hne := List.find?_eq_none.mp habs r hr
    simpa using hne
  have hbd : backend_delete st (pyKeyStr key) = (false, st) := by
    unfold backend_delete
    rw [hfil]
    simp
  unfold base_delete
  rw [hv, he]
  simp only [Bool.not_true, Bool.false_eq_true, if_false, hbd]

theorem drop_tables_main (base : String) (v : Bool) :
    drop_tables base "main" v = [.table base, .table "oak_conf"] := by
  unfold drop_tables
  simp

theorem drop_tables_all (base : String) :
    drop_tables base "all" true =
      [.table base, .table "oak_conf", .table (base ++ "_fts"), .trigger (base ++ "_ai"),
       .trigger (base ++ "_au"), .trigger (base ++ "_ad"), .table (base ++ "_vec"),
       .trigger (base ++ "_emb")] := by
  unfold drop_tables
  simp

theorem vector_triggers_not_dropped (base : String) :
    ∀ t ∈ vector_triggers base, t ∉ drop_tables base "all" true := by
  intro t ht
  have hne : ∀ s1 s2 : String, s1 ≠ s2 → base ++ s1 ≠ base ++ s2 :=
    fun s1 s2 h => append_ne_of_ne base h
  rw [drop_tables_all]
  simp [vector_triggers] at ht
  rcases ht with h | h | h <;> subst h <;>
    simp [hne _ _ (by decide : ("_embc" : String) ≠ "_ai"),
      hne _ _ (by decide : ("_embc" : String) ≠ "_au"),
      hne _ _ (by decide : ("_embc" : String) ≠ "_ad"),
      hne _ _ (by decide : ("_embc" : String) ≠ "_emb"),
      hne _ _ (by decide : ("_embd" : String) ≠ "_ai"),
      hne _ _ (by decide : ("_embd" : String) ≠ "_au"),
      hne _ _ (by decide : ("_embd" : String) ≠ "_ad"),
      hne _ _ (by decide : ("_embd" : String) ≠ "_emb"),
      hne _ _ (by decide : ("_embu" : String) ≠ "_ai"),
      hne _ _ (by decide : ("_embu" : String) ≠ "_au"),
      hne _ _ (by decide : ("_embu" : String) ≠ "_ad"),
      hne _ _ (by decide : ("_embu" : String) ≠ "_emb")]

theorem backend_add_override_preserves (st : List Row) (now : Nat) (key data : String)
    (r : Row) (h : lookupRow st key = some r) :
    backend_add st now key data true =
      .ok ((st.filter (fun x => x.key != key)) ++ [⟨key, data, r.created, now⟩]) := by
  unfold backend_add
  rw [h]
  rfl

theorem backend_adds_override_resets (st : List Row) (now : Nat) (key data : String) :
    (backend_adds st now [(key, data)] true).2 =
      (st.filter (fun x => x.key != key)) ++ [⟨key, data, now, now⟩] := rfl

theorem pages_ceil (total l : Nat) (hl : 0 < l) :
    total ≤ ((total + l - 1) / l) * l ∧ ((total + l - 1) / l) * l < total + l := by
  cases total with
  | zero =>
      have h0 : (l - 1) / l = 0 := Nat.div_eq_of_lt (by omega)
      simp [h0]
      omega
  | succ t =>
      have hstep : (t + 1 + l - 1) = t + l := by omega
      rw [hstep, Nat.add_div_right t hl]
      have h1 : t / l * l ≤ t := Nat.div_mul_le_self t l
      have h2 : t < t / l * l + l := Nat.lt_div_mul_add hl
      constructor <;> [skip; skip] <;> (rw [Nat.add_mul]; omega)

theorem base_fetch_spec (b : FetchBackend) (base_name : String) (filters : Option Filters)
    (limit : Int) (order : String) (page : Int) (total : Nat)
    (hcount : fetch_query_count b base_name filters (clamp1 limit)
        (offsetFor page limit) = .ok total) :
    ((pagesFor total limit : Int) < clamp1 page →
      base_fetch b base_name filters limit order page =
        ⟨clamp1 page, pagesFor total limit, total, 0, [], ""⟩) ∧
    (∀ q items, clamp1 page ≤ (pagesFor total limit : Int) →
      build_fetch base_name filters (clamp1 limit) (offsetFor page limit) order false = .ok q →
      parseItems b.loads (b.execRows q) = some items →
      base_fetch b base_name filters limit order page =
        ⟨clamp1 page, pagesFor total limit, total, clamp1 limit, items, ""⟩) ∧
    (total ≤ pagesFor total limit * (clamp1 limit).toNat ∧
     pagesFor total limit * (clamp1 limit).toNat < total + (clamp1 limit).toNat) := by
  unfold offsetFor clamp1 at hcount
  unfold pagesFor offsetFor clamp1
  refine ⟨?_, ?_, ?_⟩
  · intro hgt
    unfold base_fetch
    dsimp only
    rw [hcount]
    dsimp only
    rw [if_pos hgt]
  · intro q items hle hbf hparse
    unfold base_fetch
    dsimp only
    rw [hcount]
    dsimp only
    rw [if_neg (not_lt.mpr hle)]
    unfold fetch_query_rows
    rw [hbf]
    dsimp only
    rw [hparse]
  · have hl : 0 < (max 1 limit).toNat := by
      have := le_max_left (1 : Int) limit
      omega
    exact pages_ceil total (max 1 limit).toNat hl


/-- C1 (corrected): replacing an existing record with override=true through
backend add preserves the stored created timestamp (correlated subselect) and
refreshes updated; through the batch adds, however, both created and updated
are set to the current timestamp, so created is NOT preserved on the batch
path. -/
theorem C1_override_created_amended (st : List Row) (now : Nat)
    (key data : String) (r : Row) (h : lookupRow st key = some r) :
    backend_add st now key data true =
      .ok ((st.filter (fun x => x.key != key)) ++ [⟨key, data, r.created, now⟩]) ∧
    (backend_adds st now [(key, data)] true).2 =
      (st.filter (fun x => x.key != key)) ++ [⟨key, data, now, now⟩] :=
  ⟨backend_add_override_preserves st now key data r h,
   backend_adds_override_resets st now key data⟩

/-- C1 witness: concrete store with an existing row created at 5, replaced at
time 9. -/
theorem C1_override_created_witness :
    lookupRow [Row.mk "k" "d0" 5 5] "k" = some (Row.mk "k" "d0" 5 5) ∧
    (backend_add [Row.mk "k" "d0" 5 5] 9 "k" "d1" true =
        .ok ((List.filter (fun x => x.key != "k") [Row.mk "k" "d0" 5 5]) ++
          [Row.mk "k" "d1" 5 9]) ∧
      (backend_adds [Row.mk "k" "d0" 5 5] 9 [("k", "d1")] true).2 =
        (List.filter (fun x => x.key != "k") [Row.mk "k" "d0" 5 5]) ++
          [Row.mk "k" "d1" 9 9]) :=
  ⟨by rfl, C1_override_created_amended [Row.mk "k" "d0" 5 5] 9 "k" "d1"
    (Row.mk "k" "d0" 5 5) (by rfl)⟩

/-- C1 counterexample: a batch adds with override on key "k" (original
created 5, clock 9) stores created = 9, not the original 5. -/
theorem C1_adds_override_cex :
    (backend_adds [Row.mk "k" "d0" 5 5] 9 [("k", "d1")] true).2 =
      [Row.mk "k" "d1" 9 9] ∧
    (lookupRow [Row.mk "k" "d0" 5 5] "k").map Row.created = some 5 ∧
    (9 : Nat) ≠ 5 :=
  ⟨by rfl, by rfl, by decide⟩

/-- C2 (corrected): for a Condition that constructs and compiles without
raising, the parameter list length equals the number of ? placeholders for
every operator except in and !in; for in/!in the fragment holds one
placeholder per list element while the parameter list always has exactly one
entry (the whole list). Field and column names are assumed placeholder-free. -/
theorem C2_params_placeholders_amended (op fld : String) (v : PyVal) (col : String)
    (c : Condition) (sql : String) (hf : countQ fld = 0) (hc : countQ col = 0)
    (hmk : mkCondition op fld v col = .ok c) (hsql : get_cond_sql c = .ok sql) :
    (¬(op = "in" ∨ op = "!in") → c.param.length = countQ sql) ∧
    ((op = "in" ∨ op = "!in") → c.param.length = 1 ∧ countQ sql = listLen v) :=
  ⟨(C2_amended_aux hf hc hmk hsql).2, (C2_amended_aux hf hc hmk hsql).1⟩

/-- C2 witness: the starts operator on field name, one parameter and one
placeholder. -/
theorem C2_params_placeholders_witness :
    countQ "name" = 0 ∧ countQ "data" = 0 ∧
    mkCondition "starts" "name" (.vStr "bob") "data" =
      .ok (Condition.mk "starts" "name" (.vStr "bob")
        "json_extract(data, \x27$.name\x27)" [.vStr "bob%"] "data") ∧
    get_cond_sql (Condition.mk "starts" "name" (.vStr "bob")
        "json_extract(data, \x27$.name\x27)" [.vStr "bob%"] "data") =
      .ok "json_extract(data, \x27$.name\x27) LIKE ?" ∧
    ((¬("starts" = "in" ∨ "starts" = "!in") →
        (Condition.mk "starts" "name" (PyVal.vStr "bob")
          "json_extract(data, \x27$.name\x27)" [PyVal.vStr "bob%"] "data").param.length =
          countQ "json_extract(data, \x27$.name\x27) LIKE ?") ∧
      (("starts" = "in" ∨ "starts" = "!in") →
        (Condition.mk "starts" "name" (PyVal.vStr "bob")
          "json_extract(data, \x27$.name\x27)" [PyVal.vStr "bob%"] "data").param.length = 1 ∧
        countQ "json_extract(data, \x27$.name\x27) LIKE ?" =
          listLen (PyVal.vStr "bob"))) :=
  ⟨by decide, by decide, by rfl, by rfl,
   C2_params_placeholders_amended "starts" "name" (.vStr "bob") "data" _ _
     (by decide) (by decide) (by rfl) (by rfl)⟩

/-- C2 counterexample: an in condition over a two-element list compiles to a
fragment with two placeholders but a one-entry parameter list. -/
theorem C2_in_params_cex :
    compileCond "in" "tags" (.vList [.vStr "a", .vStr "b"]) "data" =
      .ok ("json_extract(data, \x27$.tags\x27) IN (json(?),json(?))",
        [.vList [.vStr "a", .vStr "b"]]) ∧
    countQ "json_extract(data, \x27$.tags\x27) IN (json(?),json(?))" = 2 ∧
    ([PyVal.vList [.vStr "a", .vStr "b"]] : List PyVal).length = 1 :=
  ⟨by rfl, by decide, by rfl⟩

/-- C3 (code_bug): Base.__init__ computes search_enabled with Python bool()
of the stored flag string, and bool("0") is True: a store whose oak_conf
holds ("users_search", "0") — exactly what disable_search persists — yields
search_enabled = true, where the specification requires false. The absent
flag and the "1" flag behave as specified; the vector flag has the same
truthiness fault when the vdb probe succeeds. -/
theorem C3_search_flag_zero_bug :
    base_init_search_enabled [("users_search", "0")] "users" = true ∧
    base_init_search_enabled [("users_search", "1")] "users" = true ∧
    base_init_search_enabled [] "users" = false ∧
    base_init_vector_enabled [("users_vector", "0")] "users" true = true ∧
    base_init_vector_enabled [("users_vector", "0")] "users" false = false :=
  ⟨by rfl, by rfl, by rfl, by rfl, by rfl⟩

/-- C4 (code_bug): the Base.adds loop copies a dict item but pops "key" from
the ORIGINAL item, so the caller's mapping is mutated (loses its "key"
entry) while the stored body still contains "key" — the opposite of the
claim on both counts. The key itself is used when truthy and regenerated
when empty, as claimed. -/
theorem C4_adds_key_pop_bug :
    adds_process_item "gen123" (.vDict [("key", .vStr "one"), ("Name", .vStr "Moe")]) =
      (.vStr "one", .vDict [("key", .vStr "one"), ("Name", .vStr "Moe")],
        .vDict [("Name", .vStr "Moe")]) ∧
    PyVal.vDict [("Name", PyVal.vStr "Moe")] ≠
      PyVal.vDict [("key", PyVal.vStr "one"), ("Name", PyVal.vStr "Moe")] ∧
    adds_process_item "gen123" (.vDict [("key", .vStr ""), ("Name", .vStr "Zoe")]) =
      (.vStr "gen123", .vDict [("key", .vStr ""), ("Name", .vStr "Zoe")],
        .vDict [("Name", .vStr "Zoe")]) :=
  ⟨by rfl, by simp, by rfl⟩

/-- C5 (corrected): drop_tables "main" (the main_only=true path) drops the
primary table AND oak_conf — oak_conf does not remain; mirrors and triggers
do. drop_tables "all" additionally drops the lexical mirror with its three
triggers and the vector mirror table, but not the vector triggers the code
creates (_embc/_embd/_embu): the drop path names a single _emb trigger. -/
theorem C5_drop_scope_amended (base : String) (v : Bool) :
    drop_tables base "main" v = [.table base, .table "oak_conf"] ∧
    drop_tables base "all" true =
      [.table base, .table "oak_conf", .table (base ++ "_fts"),
        .trigger (base ++ "_ai"), .trigger (base ++ "_au"), .trigger (base ++ "_ad"),
        .table (base ++ "_vec"), .trigger (base ++ "_emb")] ∧
    (∀ t ∈ vector_triggers base, t ∉ drop_tables base "all" true) :=
  ⟨drop_tables_main base v, drop_tables_all base, vector_triggers_not_dropped base⟩

/-- C5 counterexample: dropping base "items" with main_only=true executes a
drop of oak_conf, and dropping everything leaves the vector trigger
items_embc orphaned. -/
theorem C5_main_only_drops_conf_cex :
    base_drop "items" "items" true true =
      .ok [SqlObj.table "items", SqlObj.table "oak_conf"] ∧
    SqlObj.table "oak_conf" ∈ drop_tables "items" "main" true ∧
    SqlObj.trigger "items_embc" ∈ vector_triggers "items" ∧
    SqlObj.trigger "items_embc" ∉ drop_tables "items" "all" true :=
  ⟨by rfl, by decide, by decide, by decide⟩

/-- C6 (confirmed): with the null sentinel as value, eq compiles to
"lhs IS NULL" and ne to "lhs IS NOT NULL", both with an empty parameter
list; every other operator raises (at construction for range, at
compilation otherwise). -/
theorem C6_null_sentinel_conditions (fld col op : String) :
    compileCond "eq" fld .vNone col = .ok (field_expr col fld ++ " IS NULL", []) ∧
    compileCond "ne" fld .vNone col = .ok (field_expr col fld ++ " IS NOT NULL", []) ∧
    (op ≠ "eq" → op ≠ "ne" → exceptOk (compileCond op fld .vNone col) = false) :=
  ⟨compile_eq_null fld col, compile_ne_null fld col,
   fun h1 h2 => null_value_compile_fails h1 h2⟩

/-- C7 (corrected): constructing and compiling a Condition succeeds exactly
when the operator is in the closed set, range gets a list or tuple of
exactly two elements, in/!in get specifically a Python list (a tuple — a
sequence — raises), and a null value comes only with eq or ne. -/
theorem C7_condition_validation_amended (op fld : String) (v : PyVal) (col : String) :
    exceptOk (compileCond op fld v col) = true ↔
      (opKeys.contains op = true ∧
       (op = "range" → isPairVal v = true) ∧
       ((op = "in" ∨ op = "!in") → isListVal v = true) ∧
       (isVNone v = true → op = "eq" ∨ op = "ne")) :=
  compile_ok_iff op fld v col

/-- C7 counterexample: in with a two-element tuple — a sequence, hence
well-formed per the claim — raises. -/
theorem C7_in_tuple_cex :
    exceptOk (compileCond "in" "name" (.vTuple [.vStr "a", .vStr "b"]) "data") = false ∧
    isSeqVal (.vTuple [.vStr "a", .vStr "b"]) = true ∧
    opKeys.contains "in" = true :=
  ⟨by rfl, by rfl, by rfl⟩

/-- C8 (corrected): a single group compiles to the AND-conjunction with
parameters concatenated in key order; a LIST of groups compiles to one pair
of parentheses around the OR-join of the AND-compiled groups — the
individual groups are not parenthesized. -/
theorem C8_where_clause_shape_amended (column_name : String) (g : CondGroup)
    (gs : List CondGroup) (rg rs : List (String × List PyVal)) :
    (g.mapM (compileEntry column_name) = .ok rg →
      build_where_clause (.group g) column_name =
        .ok (pyJoin " AND " (rg.map Prod.fst), (rg.map Prod.snd).flatten)) ∧
    (gs.mapM (fun grp => build_condition grp column_name) = .ok rs →
      build_where_clause (.groups gs) column_name =
        .ok ("(" ++ pyJoin " OR " (rs.map Prod.fst) ++ ")", (rs.map Prod.snd).flatten)) := by
  constructor
  · intro h
    unfold build_where_clause build_condition
    dsimp only
    rw [buildCondEntries_mapM, h]
    rfl
  · intro h
    unfold build_where_clause
    dsimp only
    rw [buildOrGroups_mapM, h]
    rfl

/-- C8 counterexample: two singleton groups compile to a single outer pair
of parentheses, not to individually parenthesized groups. -/
theorem C8_group_parens_cex :
    build_where_clause (.groups [[("a", .vInt 1)], [("b", .vInt 2)]]) "data" =
      .ok ("(json_extract(data, \x27$.a\x27) = ? OR json_extract(data, \x27$.b\x27) = ?)",
        [.vInt 1, .vInt 2]) ∧
    spec_or_clause [[("a", .vInt 1)], [("b", .vInt 2)]] "data" =
      .ok ("(json_extract(data, \x27$.a\x27) = ?) OR (json_extract(data, \x27$.b\x27) = ?)",
        [.vInt 1, .vInt 2]) ∧
    ("(json_extract(data, \x27$.a\x27) = ? OR json_extract(data, \x27$.b\x27) = ?)" : String) ≠
      "(json_extract(data, \x27$.a\x27) = ?) OR (json_extract(data, \x27$.b\x27) = ?)" :=
  ⟨by rfl, by rfl, by decide⟩

/-- C9 (confirmed): Base.fetch clamps limit and page to at least 1, uses
offset (page-1)*limit, computes pages = ceil(total/limit) from the count
query (the two ceiling inequalities), and when page > pages returns an empty
item list with no error while still reporting page, pages and total. -/
theorem C9_fetch_pagination (b : FetchBackend) (base_name : String)
    (filters : Option Filters) (limit : Int) (order : String) (page : Int) (total : Nat)
    (hcount : fetch_query_count b base_name filters (clamp1 limit)
        (offsetFor page limit) = .ok total) :
    ((pagesFor total limit : Int) < clamp1 page →
      base_fetch b base_name filters limit order page =
        ⟨clamp1 page, pagesFor total limit, total, 0, [], ""⟩) ∧
    (∀ q items, clamp1 page ≤ (pagesFor total limit : Int) →
      build_fetch base_name filters (clamp1 limit) (offsetFor page limit) order false = .ok q →
      parseItems b.loads (b.execRows q) = some items →
      base_fetch b base_name filters limit order page =
        ⟨clamp1 page, pagesFor total limit, total, clamp1 limit, items, ""⟩) ∧
    (total ≤ pagesFor total limit * (clamp1 limit).toNat ∧
     pagesFor total limit * (clamp1 limit).toNat < total + (clamp1 limit).toNat) :=
  base_fetch_spec b base_name filters limit order page total hcount

/-- C9 witness: an oracle reporting 5 total rows, limit 2, page 99: pages is
3, the page is beyond it, and the response is empty without error. -/
theorem C9_fetch_pagination_witness :
    fetch_query_count fetchOracleW "t" Option.none (clamp1 2) (offsetFor 99 2) = .ok 5 ∧
    (((pagesFor 5 2 : Int) < clamp1 99 →
        base_fetch fetchOracleW "t" Option.none 2 "created__desc" 99 =
          ⟨clamp1 99, pagesFor 5 2, 5, 0, [], ""⟩) ∧
      (∀ q items, clamp1 99 ≤ (pagesFor 5 2 : Int) →
        build_fetch "t" Option.none (clamp1 2) (offsetFor 99 2) "created__desc" false = .ok q →
        parseItems fetchOracleW.loads (fetchOracleW.execRows q) = some items →
        base_fetch fetchOracleW "t" Option.none 2 "created__desc" 99 =
          ⟨clamp1 99, pagesFor 5 2, 5, clamp1 2, items, ""⟩) ∧
      (5 ≤ pagesFor 5 2 * (clamp1 2).toNat ∧
       pagesFor 5 2 * (clamp1 2).toNat < 5 + (clamp1 2).toNat)) :=
  ⟨by rfl, C9_fetch_pagination fetchOracleW "t" Option.none 2 "created__desc" 99 5 (by rfl)⟩

/-- C10 (confirmed): deleting a valid, non-empty key that is absent from the
base returns deleted=false with an empty error string (a truthy response
whose key field is the string form of the argument) and leaves the store
unchanged. -/
theorem C10_delete_missing (st : List Row) (key : PyKey)
    (hv : pyKeyValid key = true) (he : pyKeyEmpty key = false)
    (habs : lookupRow st (pyKeyStr key) = Option.none) :
    base_delete st key = (⟨pyKeyStr key, false, ""⟩, st) ∧
    deleteTruthy (base_delete st key).1 = true := by
  have h := delete_absent_aux st key hv he habs
  refine ⟨h, ?_⟩
  rw [h]
  rfl

/-- C10 witness: deleting key "x" from an empty store. -/
theorem C10_delete_missing_witness :
    pyKeyValid (PyKey.kStr "x") = true ∧ pyKeyEmpty (PyKey.kStr "x") = false ∧
    lookupRow [] (pyKeyStr (PyKey.kStr "x")) = Option.none ∧
    (base_delete [] (PyKey.kStr "x") =
        (⟨pyKeyStr (PyKey.kStr "x"), false, ""⟩, []) ∧
      deleteTruthy (base_delete [] (PyKey.kStr "x")).1 = true) :=
  ⟨by rfl, by rfl, by rfl, C10_delete_missing [] (PyKey.kStr "x") (by rfl) (by rfl) (by rfl)⟩

end OakDB
